import Mathlib

/-!
Verification development for the SpendOptimo repository.

Part A embeds the policy-driven recommendation-and-execution workflow engine.
The runtime code of that subsystem (api/src/app.py, workflow_runtime/app.py)
is not present under src/; only its README and the CDK stacks that deploy it
are.  Those components are therefore modelled from the specification text
(spec.md sections 3 to 7), and every such definition is marked
"Modelled from the spec".

Part B embeds, directly from the TypeScript sources under src/, the pieces of
infrastructure configuration the remaining claims are about: the Step
Functions state machine and route definitions of src/infra/lib/api-stack.ts,
and the executor role policy of the IAM stack (src/unnamed/part_002).
-/

namespace SpendOptimo

/-! ## Part A: data model, modelled from the spec -/

/-- Modelled from the spec: resource kind enum of the Recommendation record
(spec section 3); the runtime code is missing from src/. -/
inductive ResourceKind
  | Compute
  | ObjectStore
  | Function
  | Database
  | Volume
deriving DecidableEq

/-- Modelled from the spec: step kind enum of a Plan step (spec section 3). -/
inductive StepKind
  | Describe
  | PreconditionCheck
  | Mutate
  | Verify
  | Compensate
deriving DecidableEq

/-- Modelled from the spec: a Plan step with kind, resource-kind-specific
payload and a deterministic idempotency key (spec section 3). -/
structure Step where
  kind : StepKind
  payload : String
  idempotencyKey : String
deriving DecidableEq

/-- Modelled from the spec: the JSON-compatible input record of the
batch-execute call (spec section 6); resource_kind arrives as a raw string. -/
structure RecommendationInput where
  resource_kind : String
  resource_id : String
  current_config : List (String × String)
  target_config : List (String × String)
  estimated_monthly_savings : Int
  reason : String
deriving DecidableEq

/-- Modelled from the spec: the admitted, immutable Recommendation record
(spec section 3), whose resource_kind is the closed enum. -/
structure Recommendation where
  resource_kind : ResourceKind
  resource_id : String
  current_config : List (String × String)
  target_config : List (String × String)
  estimated_monthly_savings : Int
  reason : String
deriving DecidableEq

/-- Modelled from the spec: mapping of the incoming resource_kind string to a
registered kind; any other string has no registered adapter or policy. -/
def parseKind (s : String) : Option ResourceKind :=
  if s = "Compute" then some ResourceKind.Compute
  else if s = "ObjectStore" then some ResourceKind.ObjectStore
  else if s = "Function" then some ResourceKind.Function
  else if s = "Database" then some ResourceKind.Database
  else if s = "Volume" then some ResourceKind.Volume
  else none

/-- Modelled from the spec: per-resource-kind declarative rule set (spec
section 3): disallowed type patterns, a numeric threshold, a required-feature
flag. -/
structure Policy where
  disallowedTypes : List String
  maxThreshold : Nat
  requiredFeature : Bool
deriving DecidableEq

/-- Modelled from the spec: PolicyStore lookup (spec section 4.1); policies
are static configuration for the five registered kinds, loaded at start.
The concrete disallowed values follow the company policy examples quoted in
the repository README. -/
def policyLookup : ResourceKind → Option Policy
  | ResourceKind.Compute => some ⟨["r5.large", "m5.large", "c5.large", "t2.small"], 0, false⟩
  | ResourceKind.ObjectStore => some ⟨["GLACIER_IR", "DEEP_ARCHIVE"], 0, true⟩
  | ResourceKind.Function => some ⟨[], 1024, false⟩
  | ResourceKind.Database => some ⟨["db.r5.large", "db.m5.large"], 500, false⟩
  | ResourceKind.Volume => some ⟨["io1", "io2"], 500, false⟩

/-- Lookup of a key in an opaque key-value configuration map. -/
def configLookup (cfg : List (String × String)) (key : String) : Option String :=
  (cfg.find? (fun kv => decide (kv.1 = key))).map (fun kv => kv.2)

/-- Modelled from the spec: check whether a target configuration itself
violates the policy (validator check (b), spec section 4.3). -/
def targetViolates (p : Policy) (target : List (String × String)) : Bool :=
  match configLookup target "type" with
  | some v => p.disallowedTypes.contains v
  | none => false

/-- Modelled from the spec: result of RecommendationValidator.validate
(spec section 4.3). -/
inductive ValidationResult
  | Accepted (r : Recommendation)
  | Rejected (reason : String)
deriving DecidableEq

/-- Modelled from the spec: RecommendationValidator.validate (spec section
4.3): (a) the kind has a registered adapter and policy, (b) the target
configuration does not violate policy, (c) savings are non-negative,
(d) the resource id is non-empty.  Rejection is terminal. -/
def validate (input : RecommendationInput) : ValidationResult :=
  match parseKind input.resource_kind with
  | none => ValidationResult.Rejected "unknown resource kind: no registered adapter or policy"
  | some k =>
    match policyLookup k with
    | none => ValidationResult.Rejected "no policy registered for this resource kind"
    | some p =>
      if targetViolates p input.target_config then
        ValidationResult.Rejected "target configuration violates policy"
      else if input.estimated_monthly_savings < 0 then
        ValidationResult.Rejected "estimated monthly savings is negative"
      else if input.resource_id = "" then
        ValidationResult.Rejected "resource id is empty"
      else
        ValidationResult.Accepted
          ⟨k, input.resource_id, input.current_config, input.target_config,
           input.estimated_monthly_savings, input.reason⟩

/-- Modelled from the spec: a Plan step with its deterministic idempotency
key, derived from the resource id and the step (spec section 3). -/
def mkStep (rid : String) (k : StepKind) (payload : String) : Step :=
  ⟨k, payload, rid ++ ":" ++ payload⟩

/-- Modelled from the spec: ExecutionPlanner.plan (spec section 4.4), the
canonical per-kind step sequence; planning is pure and has no dynamic
branching. -/
def plan (r : Recommendation) : List Step :=
  match r.resource_kind with
  | ResourceKind.Compute =>
    [mkStep r.resource_id StepKind.Describe "describe",
     mkStep r.resource_id StepKind.PreconditionCheck "attached-volume-compatibility",
     mkStep r.resource_id StepKind.Mutate "stop",
     mkStep r.resource_id StepKind.Mutate "change-type",
     mkStep r.resource_id StepKind.Mutate "start",
     mkStep r.resource_id StepKind.Verify "verify"]
  | ResourceKind.ObjectStore =>
    [mkStep r.resource_id StepKind.Describe "describe",
     mkStep r.resource_id StepKind.Mutate "put-lifecycle-policy",
     mkStep r.resource_id StepKind.Verify "verify"]
  | ResourceKind.Function =>
    [mkStep r.resource_id StepKind.Describe "describe",
     mkStep r.resource_id StepKind.Mutate "update-config",
     mkStep r.resource_id StepKind.Verify "verify"]
  | ResourceKind.Database =>
    [mkStep r.resource_id StepKind.Describe "describe",
     mkStep r.resource_id StepKind.Mutate "modify-instance",
     mkStep r.resource_id StepKind.Verify "verify"]
  | ResourceKind.Volume =>
    [mkStep r.resource_id StepKind.Describe "describe",
     mkStep r.resource_id StepKind.PreconditionCheck "not-in-forbidden-state",
     mkStep r.resource_id StepKind.Mutate "modify-type-or-size",
     mkStep r.resource_id StepKind.Verify "verify"]

/-- The step-kind shape of the canonical plan for each kind (spec section
4.4). -/
def kindStepSeq : ResourceKind → List StepKind
  | ResourceKind.Compute =>
    [StepKind.Describe, StepKind.PreconditionCheck, StepKind.Mutate,
     StepKind.Mutate, StepKind.Mutate, StepKind.Verify]
  | ResourceKind.ObjectStore => [StepKind.Describe, StepKind.Mutate, StepKind.Verify]
  | ResourceKind.Function => [StepKind.Describe, StepKind.Mutate, StepKind.Verify]
  | ResourceKind.Database => [StepKind.Describe, StepKind.Mutate, StepKind.Verify]
  | ResourceKind.Volume =>
    [StepKind.Describe, StepKind.PreconditionCheck, StepKind.Mutate, StepKind.Verify]

/-! ## Part A: adapter and engine, modelled from the spec -/

/-- Modelled from the spec: the settled outcome of one adapter call after the
bounded retry loop of the engine has absorbed retryable attempts (spec
sections 4.2 and 7); transient here means retries were exhausted. -/
inductive StepOutcome
  | ok
  | transient
  | preconditionFailed
  | notFound
  | verifyMismatch
deriving DecidableEq

/-- Modelled from the spec: the externally visible state of one cloud
resource held by an adapter: its configuration plus the idempotency keys of
mutations already applied (spec section 4.2). -/
structure ResourceState where
  config : List (String × String)
  appliedKeys : List String
deriving DecidableEq

/-- Modelled from the spec: the payload of one Mutate step, a configuration
field to set (spec section 4.2). -/
structure MutatePayload where
  field : String
  value : String
deriving DecidableEq

/-- Update one field of a configuration map. -/
def setConfig (cfg : List (String × String)) (key value : String) : List (String × String) :=
  (key, value) :: cfg.filter (fun kv => !(decide (kv.1 = key)))

/-- Modelled from the spec: ResourceAdapter.mutate (spec section 4.2): safe
to re-invoke with the same idempotency_key; the adapter checks recorded keys
and no-ops when the mutation was already applied. -/
def mutate (s : ResourceState) (idempotencyKey : String) (p : MutatePayload) : ResourceState :=
  if idempotencyKey ∈ s.appliedKeys then s
  else ⟨setConfig s.config p.field p.value, idempotencyKey :: s.appliedKeys⟩

/-- Modelled from the spec: per-recommendation status of ExecutionState
(spec section 3). -/
inductive RecStatus
  | Pending
  | Validating
  | Planning
  | Executing
  | Compensating
  | Succeeded
  | Failed
  | Rejected
deriving DecidableEq

/-- Modelled from the spec: one AuditSink record for one attempted step
(spec section 2). -/
structure AuditEvent where
  stepIndex : Nat
  kind : StepKind
  outcome : StepOutcome
deriving DecidableEq

/-- Modelled from the spec: the terminal result of running one
recommendation plan through the engine: final status, whether the engine
entered Compensating, and the ordered audit trace of adapter calls. -/
structure RunResult where
  status : RecStatus
  compensated : Bool
  trace : List AuditEvent
deriving DecidableEq

/-- Modelled from the spec: compensation invokes, in reverse order, the
inverse operation for every Mutate step that had already succeeded (spec
section 4.5 item 4); muts lists succeeded mutate indices most recent
first. -/
def compEvents (muts : List Nat) : List AuditEvent :=
  muts.map (fun i => ⟨i, StepKind.Compensate, StepOutcome.ok⟩)

/-- Prepend one audit event to a run result. -/
def withEvent (e : AuditEvent) (r : RunResult) : RunResult :=
  ⟨r.status, r.compensated, e :: r.trace⟩

/-- Modelled from the spec: the WorkflowEngine step loop (spec section 4.5):
steps run strictly in order; a Mutate returning PreconditionFailed
transitions directly to Compensating and skips the remaining steps; any
other terminal step failure compensates when a prior Mutate succeeded and
otherwise fails; Compensating always ends in Failed. -/
def execFrom (oracle : Nat → StepOutcome) : List StepKind → Nat → List Nat → RunResult
  | [], _, _ => ⟨RecStatus.Succeeded, false, []⟩
  | k :: rest, idx, muts =>
    if oracle idx = StepOutcome.ok then
      withEvent ⟨idx, k, StepOutcome.ok⟩
        (execFrom oracle rest (idx + 1) (if k = StepKind.Mutate then idx :: muts else muts))
    else if k = StepKind.Mutate ∧ oracle idx = StepOutcome.preconditionFailed then
      ⟨RecStatus.Failed, true, ⟨idx, k, StepOutcome.preconditionFailed⟩ :: compEvents muts⟩
    else if muts = [] then
      ⟨RecStatus.Failed, false, [⟨idx, k, oracle idx⟩]⟩
    else
      ⟨RecStatus.Failed, true, ⟨idx, k, oracle idx⟩ :: compEvents muts⟩

/-- Run the engine over one admitted recommendation plan, the adapter
outcomes supplied by an oracle indexed by step position. -/
def execPlan (oracle : Nat → StepOutcome) (r : Recommendation) : RunResult :=
  execFrom oracle ((plan r).map Step.kind) 0 []

/-- Whether an audit event is a Mutate call that returned
PreconditionFailed. -/
def isPF (e : AuditEvent) : Bool :=
  decide (e.kind = StepKind.Mutate) && decide (e.outcome = StepOutcome.preconditionFailed)

/-- The audit events strictly after the first PreconditionFailed Mutate. -/
def afterFirstPF : List AuditEvent → List AuditEvent
  | [] => []
  | e :: rest => if isPF e then rest else afterFirstPF rest

/-- Modelled from the spec: human-readable failure text for a settled step
outcome (spec section 7: non-Succeeded entries carry a reason string, not a
raw error code). -/
def failReason : StepOutcome → String
  | StepOutcome.ok => "execution failed before completing all steps"
  | StepOutcome.transient => "the cloud provider kept throttling and retries were exhausted"
  | StepOutcome.preconditionFailed =>
      "the resource state was incompatible with the requested change and it was rolled back"
  | StepOutcome.notFound => "the resource no longer exists"
  | StepOutcome.verifyMismatch => "the change could not be verified against the expected result"

/-- Human-readable summary of a run, derived from the first failing audit
event. -/
def runReason (res : RunResult) : String :=
  match res.trace.find? (fun e => !(decide (e.outcome = StepOutcome.ok))) with
  | some e => failReason e.outcome
  | none =>
    if res.status = RecStatus.Succeeded then
      "all steps completed and the change was verified"
    else
      "execution failed before completing all steps"

/-- Modelled from the spec: one BatchReport entry (spec section 3):
the input recommendation, its final status, completed step count and a
human-readable summary. -/
structure BatchEntry where
  input : RecommendationInput
  status : RecStatus
  stepsCompleted : Nat
  reason : String
deriving DecidableEq

/-- Modelled from the spec: process one input recommendation end to end
(spec section 4.5): validate, then plan and execute; a rejected
recommendation never reaches the engine, so its adapter-call trace is
empty. -/
def runRec (oracle : Nat → StepOutcome) (input : RecommendationInput) :
    BatchEntry × List AuditEvent :=
  match validate input with
  | ValidationResult.Rejected msg => (⟨input, RecStatus.Rejected, 0, msg⟩, [])
  | ValidationResult.Accepted r =>
    let res := execPlan oracle r
    (⟨input, res.status,
      (res.trace.filter (fun e => decide (e.outcome = StepOutcome.ok))).length,
      runReason res⟩,
     res.trace)

/-- Modelled from the spec: the per-recommendation entries of a batch run,
one entry per input in order; the oracle is indexed by recommendation then
step. -/
def batchEntries (oracle : Nat → Nat → StepOutcome) :
    List RecommendationInput → Nat → List BatchEntry
  | [], _ => []
  | r :: rest, i => (runRec (oracle i) r).1 :: batchEntries oracle rest (i + 1)

/-- Modelled from the spec: the BatchReport emitted by one batch-execute
invocation (spec sections 3 and 6). -/
structure BatchReport where
  entries : List BatchEntry
deriving DecidableEq

/-- Modelled from the spec: the batch-execute call (spec section 6). -/
def batchExecute (oracle : Nat → Nat → StepOutcome)
    (inputs : List RecommendationInput) : BatchReport :=
  ⟨batchEntries oracle inputs 0⟩

/-! ## Part A: serialization per resource_id, modelled from the spec -/

/-- Default recommendation used only to totalize list indexing. -/
def defaultRecommendation : Recommendation :=
  ⟨ResourceKind.Compute, "", [], [], 0, ""⟩

/-- Number of Mutate steps in a recommendation plan; each occupies one time
unit of its mutate window. -/
def mutDuration (r : Recommendation) : Nat :=
  ((plan r).filter (fun s => decide (s.kind = StepKind.Mutate))).length

/-- Modelled from the spec: the engine serializes recommendations sharing a
resource_id (spec section 5, single-flight keyed by resource_id): the total
mutate time already reserved for a resource by the first i recommendations
of the batch. -/
def mutStartAux (resId : String) : List Recommendation → Nat → Nat
  | _, 0 => 0
  | [], _ + 1 => 0
  | r :: rest, n + 1 =>
    (if r.resource_id = resId then mutDuration r else 0) + mutStartAux resId rest n

/-- Start time of the mutate window the engine schedules for recommendation
i: all earlier same-resource mutate windows must have ended. -/
def mutWindowStart (recs : List Recommendation) (i : Nat) : Nat :=
  mutStartAux ((recs.getD i defaultRecommendation).resource_id) recs i

/-- End time of the mutate window of recommendation i. -/
def mutWindowEnd (recs : List Recommendation) (i : Nat) : Nat :=
  mutWindowStart recs i + mutDuration (recs.getD i defaultRecommendation)

/-! ## Part A: cancellation, modelled from the spec -/

/-- Modelled from the spec: the phase of one recommendation at the moment
the external cancellation signal is observed (spec section 5); an Executing
recommendation may have one step in flight. -/
inductive RecPhase
  | pending
  | validating
  | planning
  | executing (completedSteps : Nat) (inFlight : Option StepKind)
  | compensating
  | succeeded
  | failed
  | stopped (completedSteps : Nat)
  | rejected (reason : String)
deriving DecidableEq

/-- Modelled from the spec: effect of the cancellation signal on one
recommendation (spec section 5): Pending, Validating and Planning are
immediately marked Rejected with reason batch cancelled; an Executing
recommendation completes its current step, never cancelled mid-step, and
then stops; Compensating finishes and ends Failed; terminal phases are
unchanged. -/
def cancelPhase : RecPhase → RecPhase
  | RecPhase.pending => RecPhase.rejected "batch cancelled"
  | RecPhase.validating => RecPhase.rejected "batch cancelled"
  | RecPhase.planning => RecPhase.rejected "batch cancelled"
  | RecPhase.executing n (some _) => RecPhase.stopped (n + 1)
  | RecPhase.executing n none => RecPhase.stopped n
  | RecPhase.compensating => RecPhase.failed
  | RecPhase.succeeded => RecPhase.succeeded
  | RecPhase.failed => RecPhase.failed
  | RecPhase.stopped n => RecPhase.stopped n
  | RecPhase.rejected msg => RecPhase.rejected msg

/-- Whether a phase is terminal, so the batch may return. -/
def isTerminalPhase : RecPhase → Bool
  | RecPhase.succeeded => true
  | RecPhase.failed => true
  | RecPhase.stopped _ => true
  | RecPhase.rejected _ => true
  | _ => false

/-- Modelled from the spec: the batch drains every in-flight recommendation
to a terminal phase before returning (spec section 5). -/
def cancelBatch (phases : List RecPhase) : List RecPhase :=
  phases.map cancelPhase

/-! ## Part B: Step Functions state machine (src/infra/lib/api-stack.ts) -/

/-- The fixed result object of the Pass state of the SpendOptimoAutomation
state machine (src/infra/lib/api-stack.ts lines 299 to 316); the timestamp
is fixed at synthesis time. -/
structure AutomationResult where
  message : String
  timestamp : String
  workflow : List String
deriving DecidableEq

/-- A Step Functions state of the definitions used in this stack: a Pass
state carrying a fixed result, or a Task that would execute work. -/
inductive SfnStateDef
  | pass (result : AutomationResult)
  | task (resource : String)
deriving DecidableEq

/-- A Step Functions state machine definition: its chain of states. -/
structure SfnStateMachine where
  states : List SfnStateDef
deriving DecidableEq

/-- A value flowing through a state machine execution: the raw input or a
result object produced by a Pass state. -/
inductive SfnValue
  | raw (s : String)
  | obj (r : AutomationResult)
deriving DecidableEq

/-- Step Functions semantics for a chain of Pass and Task states: a Pass
state replaces the current value with its fixed result; a Task applies its
implementation and is recorded as executed. -/
def runStates (impl : String → SfnValue → SfnValue) :
    List SfnStateDef → SfnValue → SfnValue × List String
  | [], v => (v, [])
  | SfnStateDef.pass r :: rest, _ => runStates impl rest (SfnValue.obj r)
  | SfnStateDef.task name :: rest, v =>
    let res := runStates impl rest (impl name v)
    (res.1, name :: res.2)

/-- The six workflow step names listed in the Pass state result
(src/infra/lib/api-stack.ts lines 305 to 312). -/
def automationWorkflowSteps : List String :=
  ["collect_cost_evidence", "collect_optimizer_signals", "draft_action_plan",
   "approve_plan", "apply_fix", "verify_outcome"]

/-- The Result object of the AutomationPass state
(src/infra/lib/api-stack.ts lines 301 to 314). -/
def automationPassResult (synthTimestamp : String) : AutomationResult :=
  ⟨"Strands workflow executed successfully", synthTimestamp, automationWorkflowSteps⟩

/-- The SpendOptimoAutomation state machine: a single Pass state
(src/infra/lib/api-stack.ts lines 299 to 316). -/
def spendOptimoAutomation (synthTimestamp : String) : SfnStateMachine :=
  ⟨[SfnStateDef.pass (automationPassResult synthTimestamp)]⟩

/-! ## Part B: API Gateway routes (src/infra/lib/api-stack.ts) -/

/-- One method registration on the REST API: resource path, HTTP method and
the per-method apiKeyRequired override, when given. -/
structure RouteMethod where
  path : List String
  httpMethod : String
  apiKeyOverride : Option Bool
deriving DecidableEq

/-- The default method options of the REST API set apiKeyRequired to true
(src/infra/lib/api-stack.ts line 246). -/
def defaultApiKeyRequired : Bool := true

/-- Whether a registered method effectively requires the API key: its
override when present, else the REST API default. -/
def effectiveApiKeyRequired (m : RouteMethod) : Bool :=
  m.apiKeyOverride.getD defaultApiKeyRequired

/-- The method registrations of the ApiStack constructor in source order
(src/infra/lib/api-stack.ts lines 250 to 285): the four v1 routes with
apiKeyRequired false, then the greedy proxy with no override. -/
def apiStackMethods : List RouteMethod :=
  [⟨["v1", "chat"], "POST", some false⟩,
   ⟨["v1", "analyze"], "GET", some false⟩,
   ⟨["v1", "recommend"], "GET", some false⟩,
   ⟨["v1", "automation"], "POST", some false⟩,
   ⟨["\x7bproxy+\x7d"], "ANY", none⟩]

/-! ## Part B: executor role policy (IAM stack, src/unnamed/part_002) -/

/-- One IAM policy condition: operator, condition key and value. -/
structure IamCondition where
  operator : String
  key : String
  value : String
deriving DecidableEq

/-- One IAM policy statement: actions, resources and the conditions that
gate every action of the statement. -/
structure IamStatement where
  actions : List String
  resources : List String
  conditions : List IamCondition
deriving DecidableEq

/-- The project tag condition of the executor statement
(src/unnamed/part_002 line 23). -/
def projectTagCondition : IamCondition :=
  ⟨"StringEquals", "aws:ResourceTag/project", "spendoptimo"⟩

/-- The inline policy statement added to SpendOptimoExecutorRole
(src/unnamed/part_002 lines 14 to 24). -/
def executorMutationStatement : IamStatement :=
  ⟨["ec2:StopInstances", "ec2:StartInstances", "ec2:ModifyInstanceAttribute",
    "autoscaling:PutScheduledUpdateGroupAction",
    "s3:PutLifecycleConfiguration", "s3:GetLifecycleConfiguration",
    "rds:StopDBInstance", "rds:StartDBInstance", "rds:ModifyDBInstance",
    "eks:UpdateNodegroupConfig", "eks:DescribeNodegroup"],
   ["*"],
   [projectTagCondition]⟩

/-- An IAM role: its attached managed policy names and inline statements. -/
structure IamRole where
  managedPolicies : List String
  statements : List IamStatement
deriving DecidableEq

/-- SpendOptimoExecutorRole as constructed by the IAM stack
(src/unnamed/part_002 lines 10 to 24): the Lambda basic execution managed
policy plus the single tag-conditioned mutation statement. -/
def spendOptimoExecutorRole : IamRole :=
  ⟨["service-role/AWSLambdaBasicExecutionRole"], [executorMutationStatement]⟩

/-! ## Concrete sample inputs used by witnesses -/

/-- Sample admitted Compute recommendation, the scenario of spec section 8. -/
def sampleComputeRec : Recommendation :=
  ⟨ResourceKind.Compute, "i-1", [("type", "r5.large")], [("type", "t3.medium")], 50,
   "policy violation"⟩

/-- A second Compute recommendation on a different resource. -/
def sampleComputeRec2 : Recommendation :=
  ⟨ResourceKind.Compute, "i-2", [("type", "m5.large")], [("type", "t3.small")], 30,
   "policy violation"⟩

/-- Sample Volume recommendation sharing resource id i-1. -/
def sampleVolumeRecSameId : Recommendation :=
  ⟨ResourceKind.Volume, "i-1", [("volume-type", "io2")], [("volume-type", "gp3")], 5,
   "disallowed volume type"⟩

/-- Batch of two recommendations naming the same resource. -/
def samePairBatch : List Recommendation :=
  [sampleComputeRec, sampleVolumeRecSameId]

/-- Batch input with a resource kind that has no registered adapter. -/
def unknownKindInput : RecommendationInput :=
  ⟨"DynamoDB", "tbl-1", [], [], 10, "test"⟩

/-- Batch input for the sample Compute recommendation. -/
def sampleComputeInput : RecommendationInput :=
  ⟨"Compute", "i-1", [("type", "r5.large")], [("type", "t3.medium")], 50,
   "policy violation"⟩

/-- Sample two-element batch. -/
def sampleBatch : List RecommendationInput :=
  [unknownKindInput, sampleComputeInput]

/-- Oracle with every adapter call succeeding. -/
def allOkOracle : Nat → Nat → StepOutcome := fun _ _ => StepOutcome.ok

/-- Oracle in which the first Mutate of the compute plan, step index 2,
returns PreconditionFailed. -/
def pfOracle : Nat → StepOutcome :=
  fun n => if n = 2 then StepOutcome.preconditionFailed else StepOutcome.ok

/-- Default entry used only to totalize list indexing. -/
def defaultEntry : BatchEntry :=
  ⟨⟨"", "", [], [], 0, ""⟩, RecStatus.Pending, 0, ""⟩

/-- Sample batch phases at the moment of cancellation. -/
def samplePhases : List RecPhase :=
  [RecPhase.pending, RecPhase.executing 2 (some StepKind.Mutate), RecPhase.succeeded]

/-! ## Theorems -/

/-- The step-kind sequence of a plan depends only on the resource kind. -/
theorem plan_kind_seq (r : Recommendation) :
    (plan r).map Step.kind = kindStepSeq r.resource_kind := by
  obtain ⟨k, rid, cur, tgt, sav, why⟩ := r
  cases k <;> rfl

/-- Claim C1: the ExecutionPlanner emits a fixed, deterministic step-kind
sequence per resource kind, with no dynamic branching: recommendations of
the same kind plan to the same ordered step-kind sequence, and a Compute
recommendation plans to Describe, PreconditionCheck, Mutate, Mutate,
Mutate, Verify. -/
theorem c1_planner_deterministic :
    (∀ r1 r2 : Recommendation, r1.resource_kind = r2.resource_kind →
      (plan r1).map Step.kind = (plan r2).map Step.kind) ∧
    (∀ r : Recommendation, r.resource_kind = ResourceKind.Compute →
      (plan r).map Step.kind =
        [StepKind.Describe, StepKind.PreconditionCheck, StepKind.Mutate,
         StepKind.Mutate, StepKind.Mutate, StepKind.Verify]) := by
  constructor
  · intro r1 r2 h
    rw [plan_kind_seq, plan_kind_seq, h]
  · intro r h
    rw [plan_kind_seq, h]
    rfl

/-- Witness for C1 at two concrete Compute recommendations. -/
theorem c1_planner_deterministic_witness :
    (plan sampleComputeRec).map Step.kind = (plan sampleComputeRec2).map Step.kind ∧
    (plan sampleComputeRec).map Step.kind =
      [StepKind.Describe, StepKind.PreconditionCheck, StepKind.Mutate,
       StepKind.Mutate, StepKind.Mutate, StepKind.Verify] :=
  ⟨c1_planner_deterministic.1 sampleComputeRec sampleComputeRec2 rfl,
   c1_planner_deterministic.2 sampleComputeRec rfl⟩

/-- Claim C3: invoking the adapter mutate twice with the same
idempotency key and the same payload produces the same resulting resource
state as invoking it once. -/
theorem c3_mutate_idempotent :
    ∀ (s : ResourceState) (k : String) (p : MutatePayload),
      mutate (mutate s k p) k p = mutate s k p := by
  intro s k p
  by_cases h : k ∈ s.appliedKeys
  · simp [mutate, h]
  · simp [mutate, h]

/-- Claim C8: the SpendOptimoAutomation state machine is a single Pass
state; every execution, for every input and every task implementation,
succeeds with the same fixed result object carrying the success message and
the six workflow step names, and executes no task. -/
theorem c8_automation_single_pass :
    ∀ (ts : String) (impl : String → SfnValue → SfnValue) (v : SfnValue),
      runStates impl (spendOptimoAutomation ts).states v =
        (SfnValue.obj (automationPassResult ts), []) ∧
      (spendOptimoAutomation ts).states.length = 1 ∧
      (automationPassResult ts).message = "Strands workflow executed successfully" ∧
      (automationPassResult ts).workflow = automationWorkflowSteps ∧
      automationWorkflowSteps.length = 6 := by
  intro ts impl v
  exact ⟨rfl, rfl, rfl, rfl, rfl⟩

/-- Claim C9: the REST API default requires the API key, the four v1 routes
are registered with apiKeyRequired false, and only the greedy proxy method
effectively requires the key. -/
theorem c9_api_key_routes :
    defaultApiKeyRequired = true ∧
    (apiStackMethods.filter (fun m => effectiveApiKeyRequired m)).map
        (fun m => (m.path, m.httpMethod)) = [(["\x7bproxy+\x7d"], "ANY")] ∧
    (apiStackMethods.filter (fun m => !(effectiveApiKeyRequired m))).map
        (fun m => (m.path, m.httpMethod)) =
      [(["v1", "chat"], "POST"), (["v1", "analyze"], "GET"),
       (["v1", "recommend"], "GET"), (["v1", "automation"], "POST")] := by
  exact ⟨rfl, rfl, rfl⟩

/-- Claim C10: the executor role consists of the single tag-conditioned
mutation statement next to the Lambda logging managed policy; the named
mutating actions are in that statement, and every statement of the role
carries the aws:ResourceTag/project = spendoptimo condition. -/
theorem c10_executor_tag_condition :
    ("ec2:StopInstances" ∈ executorMutationStatement.actions ∧
     "ec2:StartInstances" ∈ executorMutationStatement.actions ∧
     "ec2:ModifyInstanceAttribute" ∈ executorMutationStatement.actions ∧
     "s3:PutLifecycleConfiguration" ∈ executorMutationStatement.actions ∧
     "rds:ModifyDBInstance" ∈ executorMutationStatement.actions) ∧
    spendOptimoExecutorRole.statements = [executorMutationStatement] ∧
    (spendOptimoExecutorRole.statements.all
      (fun s => decide (projectTagCondition ∈ s.conditions))) = true ∧
    projectTagCondition.key = "aws:ResourceTag/project" ∧
    projectTagCondition.value = "spendoptimo" := by
  refine ⟨⟨?_, ?_, ?_, ?_, ?_⟩, rfl, ?_, rfl, rfl⟩ <;> decide

/-- Every rejection reason produced by the validator is a non-empty string. -/
theorem validate_reject_reason (input : RecommendationInput) (msg : String) :
    validate input = ValidationResult.Rejected msg → msg ≠ "" := by
  unfold validate
  split
  · intro h
    injection h with h2
    subst h2
    decide
  · split
    · intro h
      injection h with h2
      subst h2
      decide
    · split
      · intro h
        injection h with h2
        subst h2
        decide
      · split
        · intro h
          injection h with h2
          subst h2
          decide
        · split
          · intro h
            injection h with h2
            subst h2
            decide
          · intro h
            cases h

/-- The run summary is always a non-empty string. -/
theorem runReason_ne (res : RunResult) : runReason res ≠ "" := by
  unfold runReason
  split
  · rename_i e _
    cases e.outcome <;> decide
  · split <;> decide

/-- The entry emitted for one recommendation carries that recommendation. -/
theorem runRec_input (oracle : Nat → StepOutcome) (input : RecommendationInput) :
    ((runRec oracle input).1).input = input := by
  unfold runRec
  split <;> rfl

/-- A non-Succeeded entry carries a non-empty reason string. -/
theorem runRec_reason (oracle : Nat → StepOutcome) (input : RecommendationInput) :
    (runRec oracle input).1.status ≠ RecStatus.Succeeded →
    (runRec oracle input).1.reason ≠ "" := by
  unfold runRec
  split
  · rename_i msg heq
    intro _
    exact validate_reject_reason input msg heq
  · intro _
    exact runReason_ne _

/-- Batch entries enumerate the inputs in order. -/
theorem batchEntries_map (oracle : Nat → Nat → StepOutcome) :
    ∀ (inputs : List RecommendationInput) (i : Nat),
      (batchEntries oracle inputs i).map BatchEntry.input = inputs := by
  intro inputs
  induction inputs with
  | nil => intro i; rfl
  | cons r rest ih =>
    intro i
    simp [batchEntries, runRec_input, ih]

/-- Every batch entry arises from running one recommendation. -/
theorem mem_batchEntries (oracle : Nat → Nat → StepOutcome) :
    ∀ (inputs : List RecommendationInput) (i : Nat) (e : BatchEntry),
      e ∈ batchEntries oracle inputs i →
      ∃ j r, e = (runRec (oracle j) r).1 := by
  intro inputs
  induction inputs with
  | nil => intro i e he; simp [batchEntries] at he
  | cons r rest ih =>
    intro i e he
    simp only [batchEntries, List.mem_cons] at he
    rcases he with he | he
    · exact ⟨i, r, he⟩
    · exact ih (i + 1) e he

/-- Claim C2: for every batch-execute invocation, the BatchReport
enumerates each input recommendation exactly once, in order, each with an
explicit status, and every non-Succeeded entry carries a non-empty
human-readable reason string. -/
theorem c2_batch_report_complete :
    ∀ (oracle : Nat → Nat → StepOutcome) (inputs : List RecommendationInput),
      ((batchExecute oracle inputs).entries.map BatchEntry.input = inputs) ∧
      ∀ e ∈ (batchExecute oracle inputs).entries,
        e.status ≠ RecStatus.Succeeded → e.reason ≠ "" := by
  intro oracle inputs
  refine ⟨batchEntries_map oracle inputs 0, ?_⟩
  intro e he hs
  obtain ⟨j, r, rfl⟩ := mem_batchEntries oracle inputs 0 e he
  exact runRec_reason (oracle j) r hs

/-- Witness for C2 on a concrete two-element batch: the first entry is the
rejected unknown-kind recommendation. -/
theorem c2_batch_report_complete_witness :
    ((batchExecute allOkOracle sampleBatch).entries.map BatchEntry.input = sampleBatch) ∧
    ((batchExecute allOkOracle sampleBatch).entries.getD 0 defaultEntry).reason ≠ "" := by
  refine ⟨(c2_batch_report_complete allOkOracle sampleBatch).1, ?_⟩
  exact (c2_batch_report_complete allOkOracle sampleBatch).2 _ (by decide) (by decide)

/-- Every compensation event has kind Compensate. -/
theorem compEvents_kind (muts : List Nat) :
    ∀ e ∈ compEvents muts, e.kind = StepKind.Compensate := by
  intro e he
  simp only [compEvents, List.mem_map] at he
  obtain ⟨i, _, rfl⟩ := he
  rfl

/-- No compensation event is a PreconditionFailed Mutate. -/
theorem any_compEvents (muts : List Nat) : (compEvents muts).any isPF = false := by
  induction muts with
  | nil => rfl
  | cons i rest ih => simp [compEvents, isPF]

/-- Engine invariant behind C4: once a Mutate step settles as
PreconditionFailed, the run ends Failed through Compensating, and every
audit event after that Mutate is a compensation event. -/
theorem execFrom_pf (kinds : List StepKind) :
    ∀ (oracle : Nat → StepOutcome) (idx : Nat) (muts : List Nat),
      (execFrom oracle kinds idx muts).trace.any isPF = true →
      (execFrom oracle kinds idx muts).status = RecStatus.Failed ∧
      (execFrom oracle kinds idx muts).compensated = true ∧
      ∀ e ∈ afterFirstPF (execFrom oracle kinds idx muts).trace,
        e.kind = StepKind.Compensate := by
  induction kinds with
  | nil =>
    intro oracle idx muts h
    simp [execFrom] at h
  | cons k rest ih =>
    intro oracle idx muts h
    by_cases ho : oracle idx = StepOutcome.ok
    · have hnpf : isPF ⟨idx, k, StepOutcome.ok⟩ = false := by
        simp [isPF]
      rw [execFrom, if_pos ho] at h ⊢
      simp only [withEvent, List.any_cons, hnpf, Bool.false_or] at h
      obtain ⟨h1, h2, h3⟩ := ih oracle (idx + 1)
        (if k = StepKind.Mutate then idx :: muts else muts) h
      refine ⟨h1, h2, ?_⟩
      simpa [afterFirstPF, hnpf] using h3
    · by_cases hpf : k = StepKind.Mutate ∧ oracle idx = StepOutcome.preconditionFailed
      · rw [execFrom, if_neg ho, if_pos hpf] at h ⊢
        have hev : isPF ⟨idx, k, StepOutcome.preconditionFailed⟩ = true := by
          simp [isPF, hpf.1]
        refine ⟨rfl, rfl, ?_⟩
        simpa [afterFirstPF, hev] using compEvents_kind muts
      · have hnpf : isPF ⟨idx, k, oracle idx⟩ = false := by
          rw [isPF]
          by_cases hk : k = StepKind.Mutate
          · have hout : ¬ oracle idx = StepOutcome.preconditionFailed :=
              fun hpc => hpf ⟨hk, hpc⟩
            simp [hout]
          · simp [hk]
        by_cases hm : muts = []
        · rw [execFrom, if_neg ho, if_neg hpf, if_pos hm] at h
          simp [hnpf] at h
        · rw [execFrom, if_neg ho, if_neg hpf, if_neg hm] at h
          simp only [List.any_cons, hnpf, Bool.false_or, any_compEvents] at h
          exact absurd h (by decide)

/-- Claim C4: if a Mutate step of a recommendation plan returns
PreconditionFailed, the engine transitions directly to Compensating, no
subsequent Mutate step of the original plan executes (every later audit
event is a compensation event) and the final status is Failed. -/
theorem c4_precondition_failed_compensates :
    ∀ (oracle : Nat → StepOutcome) (r : Recommendation),
      (execPlan oracle r).trace.any isPF = true →
      (execPlan oracle r).status = RecStatus.Failed ∧
      (execPlan oracle r).compensated = true ∧
      ∀ e ∈ afterFirstPF (execPlan oracle r).trace, e.kind = StepKind.Compensate := by
  intro oracle r h
  exact execFrom_pf ((plan r).map Step.kind) oracle 0 [] h

/-- Witness for C4: the first Mutate of a Compute plan fails its
precondition. -/
theorem c4_precondition_failed_compensates_witness :
    (execPlan pfOracle sampleComputeRec).status = RecStatus.Failed ∧
    (execPlan pfOracle sampleComputeRec).compensated = true ∧
    ∀ e ∈ afterFirstPF (execPlan pfOracle sampleComputeRec).trace,
      e.kind = StepKind.Compensate :=
  c4_precondition_failed_compensates pfOracle sampleComputeRec (by decide)

/-- Claim C5: a recommendation whose resource_kind has no registered
adapter or policy is Rejected by validate, and the engine performs no
adapter call for it: its audit trace is empty. -/
theorem c5_unknown_kind_rejected :
    ∀ (oracle : Nat → StepOutcome) (input : RecommendationInput),
      parseKind input.resource_kind = none →
      (runRec oracle input).1.status = RecStatus.Rejected ∧
      (runRec oracle input).2 = [] := by
  intro oracle input h
  simp [runRec, validate, h]

/-- Witness for C5 at a DynamoDB recommendation, a kind with no adapter. -/
theorem c5_unknown_kind_rejected_witness :
    (runRec (fun _ => StepOutcome.ok) unknownKindInput).1.status = RecStatus.Rejected ∧
    (runRec (fun _ => StepOutcome.ok) unknownKindInput).2 = [] :=
  c5_unknown_kind_rejected (fun _ => StepOutcome.ok) unknownKindInput (by decide)

/-- Serialization invariant behind C6: the mutate window of an earlier
same-resource recommendation ends no later than the reserved time of any
later position. -/
theorem mutStartAux_le (resId : String) :
    ∀ (recs : List Recommendation) (i j : Nat), i < j → i < recs.length →
      (recs.getD i defaultRecommendation).resource_id = resId →
      mutStartAux resId recs i + mutDuration (recs.getD i defaultRecommendation) ≤
        mutStartAux resId recs j := by
  intro recs
  induction recs with
  | nil =>
    intro i j _ hi _
    simp at hi
  | cons r rest ih =>
    intro i j hij hi hres
    cases i with
    | zero =>
      cases j with
      | zero => exact absurd hij (by omega)
      | succ n =>
        simp only [List.getD_cons_zero] at hres
        simp only [mutStartAux, Nat.zero_add, hres, if_pos rfl]
        simp only [List.getD_cons_zero]
        exact Nat.le_add_right _ _
    | succ m =>
      cases j with
      | zero => exact absurd hij (by omega)
      | succ n =>
        simp only [List.getD_cons_succ] at hres ⊢
        simp only [mutStartAux]
        have hrec := ih m n (by omega) (by simpa using hi) hres
        omega

/-- Claim C6: for two recommendations of one batch sharing the same
resource_id, the engine serializes their mutate phases: the mutate windows
it schedules for them never overlap in time. -/
theorem c6_per_resource_serialization :
    ∀ (recs : List Recommendation) (i j : Nat),
      i < recs.length → j < recs.length → i ≠ j →
      (recs.getD i defaultRecommendation).resource_id =
        (recs.getD j defaultRecommendation).resource_id →
      mutWindowEnd recs i ≤ mutWindowStart recs j ∨
      mutWindowEnd recs j ≤ mutWindowStart recs i := by
  intro recs i j hi hj hij hsame
  rcases Nat.lt_or_ge i j with h | h
  · left
    unfold mutWindowEnd mutWindowStart
    rw [hsame]
    exact mutStartAux_le _ recs i j h hi hsame
  · right
    have hji : j < i := by omega
    unfold mutWindowEnd mutWindowStart
    rw [hsame.symm]
    exact mutStartAux_le _ recs j i hji hj hsame.symm

/-- Witness for C6 on a concrete batch of two recommendations naming
resource i-1. -/
theorem c6_per_resource_serialization_witness :
    mutWindowEnd samePairBatch 0 ≤ mutWindowStart samePairBatch 1 ∨
    mutWindowEnd samePairBatch 1 ≤ mutWindowStart samePairBatch 0 :=
  c6_per_resource_serialization samePairBatch 0 1 (by decide) (by decide)
    (by decide) (by decide)

/-- Cancellation leaves every recommendation in a terminal phase. -/
theorem cancelPhase_terminal (p : RecPhase) : isTerminalPhase (cancelPhase p) = true := by
  cases p with
  | executing n inFlight => cases inFlight <;> rfl
  | _ => rfl

/-- Claim C7: on the external cancellation signal, every recommendation
still Pending, Validating or Planning is marked Rejected with reason batch
cancelled; every Executing recommendation completes its current step, never
cancelled mid-step, and then stops; and the whole batch is terminal before
returning. -/
theorem c7_cancellation :
    ∀ (phases : List RecPhase),
      (cancelBatch phases).all isTerminalPhase = true ∧
      ∀ p ∈ phases,
        ((p = RecPhase.pending ∨ p = RecPhase.validating ∨ p = RecPhase.planning) →
          cancelPhase p = RecPhase.rejected "batch cancelled") ∧
        (∀ n k, p = RecPhase.executing n (some k) →
          cancelPhase p = RecPhase.stopped (n + 1)) ∧
        (∀ n, p = RecPhase.executing n none → cancelPhase p = RecPhase.stopped n) := by
  intro phases
  constructor
  · simp only [cancelBatch, List.all_map, List.all_eq_true]
    intro p _
    exact cancelPhase_terminal p
  · intro p _
    refine ⟨?_, ?_, ?_⟩
    · rintro (rfl | rfl | rfl) <;> rfl
    · rintro n k rfl
      rfl
    · rintro n rfl
      rfl

/-- Witness for C7 on a concrete batch with a pending and an executing
recommendation. -/
theorem c7_cancellation_witness :
    (cancelBatch samplePhases).all isTerminalPhase = true ∧
    cancelPhase RecPhase.pending = RecPhase.rejected "batch cancelled" ∧
    cancelPhase (RecPhase.executing 2 (some StepKind.Mutate)) = RecPhase.stopped 3 :=
  ⟨(c7_cancellation samplePhases).1,
   ((c7_cancellation samplePhases).2 RecPhase.pending (by decide)).1 (Or.inl rfl),
   ((c7_cancellation samplePhases).2 (RecPhase.executing 2 (some StepKind.Mutate))
     (by decide)).2.1 2 StepKind.Mutate rfl⟩

end SpendOptimo
